import Mathlib

/-!
Shallow embedding of the UMLify interaction core
(src/canvas/InteractionController.js and
src/plugins/sequence/SequencePlugin.js) and proofs about it.

Pointer coordinates and shape geometry are modelled with `Int`
(the source uses JS numbers; every operation verified here is
integer-valued on integer inputs). DOM access is abstracted into a
`ClickTarget` record holding the results of the `closest` queries the
controller performs, per the hit-test interface of the spec.
Collaborator classes that are not part of the two source files
(Commands, CommandManager, Connection, ShapeFactory, snapToGrid) are
modelled from the spec and marked as such in their doc comments.
-/

/-- A 2D point, as in utils/geometry.js `Point`. -/
structure Point where
  x : Int
  y : Int
deriving Repr, DecidableEq

/-- JS `String.prototype.includes` restricted to a single character:
whether the character occurs in the string. -/
def strContainsChar (s : String) (c : Char) : Bool :=
  s.toList.contains c

/-- Rectangle bounds as used by `calculateNewBounds` and resize commands. -/
structure Bounds where
  x : Int
  y : Int
  width : Int
  height : Int
deriving Repr, DecidableEq

/--
`InteractionController.calculateNewBounds(original, handleId, dx, dy)`
(InteractionController.js lines 429-468): switch over the eight handle
ids adjusting x/y/width/height by the drag delta, then the minimum-size
clamp (minW = 40, minH = 30) which shifts x (resp. y) when the handle id
contains the character w (resp. n) so the opposite edge stays fixed.
-/
def calculateNewBounds (original : Bounds) (handleId : String) (dx dy : Int) : Bounds :=
  let x := original.x
  let y := original.y
  let width := original.width
  let height := original.height
  let s : Int × Int × Int × Int :=
    match handleId with
    | "nw" => (x + dx, y + dy, width - dx, height - dy)
    | "n"  => (x, y + dy, width, height - dy)
    | "ne" => (x, y + dy, width + dx, height - dy)
    | "e"  => (x, y, width + dx, height)
    | "se" => (x, y, width + dx, height + dy)
    | "s"  => (x, y, width, height + dy)
    | "sw" => (x + dx, y, width - dx, height + dy)
    | "w"  => (x + dx, y, width - dx, height)
    | _    => (x, y, width, height)
  let x := s.1
  let y := s.2.1
  let width := s.2.2.1
  let height := s.2.2.2
  let minW : Int := 40
  let minH : Int := 30
  let (x, width) :=
    if width < minW then
      (if strContainsChar handleId 'w' then x - (minW - width) else x, minW)
    else (x, width)
  let (y, height) :=
    if height < minH then
      (if strContainsChar handleId 'n' then y - (minH - height) else y, minH)
    else (y, height)
  { x := x, y := y, width := width, height := height }

/-- The eight resize handle ids. -/
def resizeHandles : List String := ["n", "s", "e", "w", "ne", "nw", "se", "sw"]

/--
The edge opposite the dragged handle is unchanged: handles on the east
side leave the west edge x fixed, handles containing w leave the east
edge x+width fixed, handles containing n leave the south edge y+height
fixed, handles on the south side leave the north edge y fixed.
-/
def oppositeEdgesFixed (orig res : Bounds) (handleId : String) : Prop :=
  (strContainsChar handleId 'e' = true → res.x = orig.x) ∧
  (strContainsChar handleId 'w' = true → res.x + res.width = orig.x + orig.width) ∧
  (strContainsChar handleId 's' = true → res.y = orig.y) ∧
  (strContainsChar handleId 'n' = true → res.y + res.height = orig.y + orig.height)

/-- A diagram shape. Modelled from the spec (§3 Data Model): identity,
position, size, a type tag; the Shape class itself (shapes/Shape.js) is
not among the given source files. The free-form property map and style
record play no role in the verified operations and are omitted. -/
structure Shape where
  id : String
  x : Int
  y : Int
  width : Int
  height : Int
  shapeType : String
  diagramType : String
deriving Repr, DecidableEq

/-- Connector style record, the fields the controller sets when it builds
`connectionOptions.style` (InteractionController.js lines 572-576). -/
structure ConnStyle where
  lineStyle : String
  sourceArrow : String
  targetArrow : String
deriving Repr, DecidableEq

/-- One endpoint of a connection. Modelled from the spec (§3): a reference
to a shape by identity plus an attachment-side choice; the controller
reads `connection.source.shapeId` and calls `setSource` with the
automatic side choice (Connection.js is not among the given source
files). -/
structure ConnEnd where
  shapeId : String
  side : String
deriving Repr, DecidableEq

/-- A connection. Modelled from the spec (§3): identity, source and target
endpoints referencing shapes by identity, optional per-endpoint attachment
Y coordinates, a type tag and a style record, as populated by the
`connectionOptions` built in InteractionController.js lines 567-585. -/
structure Connection where
  id : String
  connType : String
  source : ConnEnd
  target : ConnEnd
  sourceY : Option Int
  targetY : Option Int
  style : ConnStyle
  diagramType : String
deriving Repr, DecidableEq

/-- The diagram model. Modelled from the spec (§6): the authoritative set
of shapes and connections with `getShape` / `getConnection` /
`getConnections` lookups (Diagram.js is not among the given source
files). -/
structure Diagram where
  shapes : List Shape
  connections : List Connection
deriving Repr, DecidableEq

def Diagram.getShape (d : Diagram) (id : String) : Option Shape :=
  d.shapes.find? (fun s => s.id == id)

def Diagram.getConnection (d : Diagram) (id : String) : Option Connection :=
  d.connections.find? (fun c => c.id == id)

/-- The command variants of commands/Commands.js, each carrying the data
named in the spec (§3). Modelled from the spec: Commands.js is not among
the given source files; the constructors mirror the constructor calls in
InteractionController.js. -/
inductive Command where
  | addShape (s : Shape)
  | removeShape (s : Shape)
  | moveShapes (shapeIds : List String) (dx dy : Int)
  | addConnection (c : Connection)
  | resizeShape (shapeId : String) (before after : Bounds)
deriving Repr, DecidableEq

/-- Forward effect of a command on the diagram. Modelled from the spec
(§3, §4.2): AddShape/AddConnection insert the entity, RemoveShape deletes
it, MoveShapes translates the listed shapes, ResizeShape installs the
after-bounds. -/
def Command.applyTo : Command → Diagram → Diagram
  | .addShape s, d => { d with shapes := d.shapes ++ [s] }
  | .removeShape s, d => { d with shapes := d.shapes.filter (fun t => t.id ≠ s.id) }
  | .moveShapes ids dx dy, d =>
      { d with shapes := d.shapes.map (fun s =>
          if ids.contains s.id then { s with x := s.x + dx, y := s.y + dy } else s) }
  | .addConnection c, d => { d with connections := d.connections ++ [c] }
  | .resizeShape sid _ after, d =>
      { d with shapes := d.shapes.map (fun s =>
          if s.id == sid then
            { s with x := after.x, y := after.y,
                     width := after.width, height := after.height }
          else s) }

/-- Reverse effect of a command. Modelled from the spec (§3, §4.2): each
command carries exactly the data needed to revert its mutation. -/
def Command.revertOn : Command → Diagram → Diagram
  | .addShape s, d => { d with shapes := d.shapes.filter (fun t => t.id ≠ s.id) }
  | .removeShape s, d => { d with shapes := d.shapes ++ [s] }
  | .moveShapes ids dx dy, d =>
      { d with shapes := d.shapes.map (fun s =>
          if ids.contains s.id then { s with x := s.x - dx, y := s.y - dy } else s) }
  | .addConnection c, d => { d with connections := d.connections.filter (fun t => t.id ≠ c.id) }
  | .resizeShape sid before _, d =>
      { d with shapes := d.shapes.map (fun s =>
          if s.id == sid then
            { s with x := before.x, y := before.y,
                     width := before.width, height := before.height }
          else s) }

/-- The command history. Modelled from the spec (§4.2): an undo stack of
executed commands (`done`, newest first) and a redo stack of undone
commands (`undone`); CommandManager.js is not among the given source
files. -/
structure CommandManager where
  done : List Command
  undone : List Command
deriving Repr, DecidableEq

/-- A shape definition entry from `plugin.getShapeDefinitions()`
(PluginRegistry.js ShapeDefinition): only the default size is consumed by
the verified handlers. -/
structure ShapeDefinition where
  defaultWidth : Int
  defaultHeight : Int
deriving Repr, DecidableEq

/-- A connector definition entry from `plugin.getConnectorTypes()`
(PluginRegistry.js ConnectorDefinition), with the fields read by the
controller and declared by SequencePlugin.getConnectorTypes. Optional
fields are absent when the declaration omits them (JS undefined). -/
structure ConnectorDefinition where
  connType : String
  name : String
  lineStyle : Option String
  sourceArrow : Option String
  targetArrow : Option String
  validSources : List String
  validTargets : List String
deriving Repr, DecidableEq

/-- Result of `plugin.validateConnection`: either a bare JS boolean or an
object with a `valid` flag and an optional `message` (the two return
shapes the spec requires the core to accept). -/
inductive ValidationResult where
  | bool (b : Bool)
  | obj (valid : Bool) (message : Option String)
deriving Repr, DecidableEq

/-- `validationResult === true || (validationResult && validationResult.valid)`
(InteractionController.js line 558): a bare boolean passes iff it is
`true`; an object is truthy, so its `valid` field decides. -/
def ValidationResult.isValid : ValidationResult → Bool
  | .bool b => b
  | .obj v _ => v

/-- The optional message of the result, with the default fallback text,
as read in InteractionController.js line 596. -/
def ValidationResult.diagnosticMessage : ValidationResult → String
  | .bool _ => "Invalid connection"
  | .obj _ msg => msg.getD "Invalid connection"

/-- The active diagram-type plugin as consumed by the controller: an id,
the shape-definition catalog, the connector-type catalog and the
validation predicate (spec §6). -/
structure Plugin where
  id : String
  shapeDefs : String → Option ShapeDefinition
  connectorTypes : List ConnectorDefinition
  validateConnection : Shape → Shape → String → ValidationResult

/-- The mutable fields of InteractionController relevant to the verified
gestures (constructor, InteractionController.js lines 30-50). The drag
start positions store (shape id, x, y) triples; in the source they hold
live shape references, resolved here through the diagram, the sole source
of truth per spec §6. -/
structure ControllerState where
  currentTool : String
  state : String
  dragStartPoint : Option Point
  dragStartPositions : Option (List (String × Int × Int))
  isDragging : Bool
  isResizing : Bool
  resizeHandle : Option String
  resizeStartBounds : Option Bounds
  resizingShapeId : Option String
  connectionSource : Option Shape
  connectionSourceY : Option Int
  draggingEndpoint : Bool
  draggingConnectionId : Option String
  draggingEndpointType : Option String
deriving Repr, DecidableEq

/-- The whole single-threaded system the controller mutates: diagram,
controller fields, command history, selection (shape ids), the warnings
written to the console (`console.warn`), and a counter for fresh entity
identities. -/
structure Sys where
  diagram : Diagram
  ctrl : ControllerState
  mgr : CommandManager
  selection : List String
  diagnostics : List String
  nextId : Nat
deriving Repr, DecidableEq

/-- Abstract click target, per the hit-test interface of spec §9: the
results of the DOM `closest` queries the controller performs on the event
target. `closestShapeId` is the id of the nearest enclosing element with
class shape, `closestLifeline` whether a lifeline element encloses the
target, and `lifelineParentShapeId` the id of the shape group enclosing
that lifeline. -/
structure ClickTarget where
  closestShapeId : Option String
  closestLifeline : Bool
  lifelineParentShapeId : Option String
deriving Repr, DecidableEq

/-- `commandManager.execute(command)`: apply the forward effect and push,
truncating the redo tail. Modelled from the spec (§4.2); CommandManager.js
is not among the given source files. -/
def executeCommand (c : Command) (sys : Sys) : Sys :=
  { sys with
    diagram := c.applyTo sys.diagram
    mgr := { done := c :: sys.mgr.done, undone := [] } }

/-- `commandManager.addToHistory(command)`: record without reapplying,
truncating the redo tail. Modelled from the spec (§4.2). -/
def addToHistory (c : Command) (sys : Sys) : Sys :=
  { sys with mgr := { done := c :: sys.mgr.done, undone := [] } }

/-- `commandManager.undo()`: revert the most recently applied command, a
no-op on an empty undo stack. Modelled from the spec (§4.2). -/
def undoCommand (sys : Sys) : Sys :=
  match sys.mgr.done with
  | [] => sys
  | c :: rest =>
      { sys with
        diagram := c.revertOn sys.diagram
        mgr := { done := rest, undone := c :: sys.mgr.undone } }

/-- `commandManager.redo()`: reapply the most recently undone command, a
no-op on an empty redo stack. Modelled from the spec (§4.2). -/
def redoCommand (sys : Sys) : Sys :=
  match sys.mgr.undone with
  | [] => sys
  | c :: rest =>
      { sys with
        diagram := c.applyTo sys.diagram
        mgr := { done := c :: sys.mgr.done, undone := rest } }

/-- `resetConnectionState()` (InteractionController.js lines 846-856):
clear the pending connection source and its Y, return to idle. The DOM
preview-line removal is presentation and not modelled. -/
def resetConnectionState (sys : Sys) : Sys :=
  { sys with
    ctrl := { sys.ctrl with
      connectionSource := none
      connectionSourceY := none
      state := "idle" } }

/-- `resetState()` (InteractionController.js lines 839-844). -/
def resetState (sys : Sys) : Sys :=
  resetConnectionState
    { sys with
      ctrl := { sys.ctrl with
        state := "idle"
        isDragging := false
        dragStartPoint := none } }

/-- `handleToolSelected({toolId})` (InteractionController.js lines
142-160): record the new tool and reset the interaction state. Cursor
updates are presentation and not modelled. -/
def handleToolSelected (sys : Sys) (toolId : String) : Sys :=
  resetState { sys with ctrl := { sys.ctrl with currentTool := toolId } }

/-- Shape resolution of `handleConnectorToolClick` (InteractionController.js
lines 513-536): a shape element wins, otherwise a lifeline element
resolves through its enclosing shape group. -/
def connectorClickShape (d : Diagram) (target : ClickTarget) : Option Shape :=
  match target.closestShapeId with
  | some sid => d.getShape sid
  | none =>
      if target.closestLifeline then
        target.lifelineParentShapeId.bind (fun pid => d.getShape pid)
      else
        none

/-- `handleConnectorToolClick(point, target)` (InteractionController.js
lines 512-602). Empty space cancels the pending connection; the first
shape click records the source and enters `connecting`; a second click on
a different shape runs plugin validation and on success executes an
AddConnection command built from the connector-type defaults (with both
attachment Y offsets set to the click Y for the sequence diagram type),
on failure only warns; a second click on the same shape does nothing. -/
def handleConnectorToolClick (plugin : Plugin) (sys : Sys) (point : Point)
    (target : ClickTarget) : Sys :=
  if target.closestShapeId = none ∧ target.closestLifeline = false then
    resetConnectionState sys
  else
    match connectorClickShape sys.diagram target with
    | none => sys
    | some shape =>
      let isSequenceDiagram := plugin.id == "sequence"
      match sys.ctrl.connectionSource with
      | none =>
          { sys with
            ctrl := { sys.ctrl with
              connectionSource := some shape
              connectionSourceY := some point.y
              state := "connecting" } }
      | some src =>
        if src.id ≠ shape.id then
          let validationResult := plugin.validateConnection src shape sys.ctrl.currentTool
          if validationResult.isValid then
            let connectorDef := plugin.connectorTypes.find?
              (fun c => c.connType == sys.ctrl.currentTool)
            let conn : Connection :=
              { id := toString sys.nextId
                connType := sys.ctrl.currentTool
                source := { shapeId := src.id, side := "auto" }
                target := { shapeId := shape.id, side := "auto" }
                sourceY := if isSequenceDiagram then some point.y else none
                targetY := if isSequenceDiagram then some point.y else none
                style :=
                  { lineStyle := (connectorDef.bind (fun c => c.lineStyle)).getD "solid"
                    sourceArrow := (connectorDef.bind (fun c => c.sourceArrow)).getD "none"
                    targetArrow := (connectorDef.bind (fun c => c.targetArrow)).getD "filled" }
                diagramType := plugin.id }
            resetConnectionState
              (executeCommand (Command.addConnection conn)
                { sys with nextId := sys.nextId + 1 })
          else
            resetConnectionState
              { sys with
                diagnostics := validationResult.diagnosticMessage :: sys.diagnostics }
        else
          sys

/-- `snapToGrid` from utils/geometry.js. Modelled from the spec:
geometry.js is not among the given source files; the spec (§2, §8)
describes a grid-snap function that moves a coordinate to the nearest
multiple of the grid size, with (103, 57) snapping to (100, 60) at grid
20. Rounding of the half-way point follows JS Math.round (toward plus
infinity). -/
def snapToGrid (v : Int) (gridSize : Int) : Int :=
  (Int.fdiv (2 * v + gridSize) (2 * gridSize)) * gridSize

/-- `ShapeFactory.create(type, options)`. Modelled from the spec (§3,
§4.1): instantiates a new shape of the given type with exactly the bounds
passed by the caller; ShapeFactory.js is not among the given source
files. The fresh identity comes from the system counter. -/
def shapeFactoryCreate (shapeType : String) (x y width height : Int)
    (diagramType : String) (freshId : Nat) : Shape :=
  { id := toString freshId
    x := x, y := y, width := width, height := height
    shapeType := shapeType
    diagramType := diagramType }

/-- `handleShapeToolClick(point)` (InteractionController.js lines
482-510): snap the click point to the 20-unit grid, create a shape of the
current tool type centered on the snapped point with the definition
default size, execute an AddShape command, select the new shape and
switch back to the select tool. -/
def handleShapeToolClick (plugin : Plugin) (sys : Sys) (point : Point) : Sys :=
  let snappedPoint : Point := ⟨snapToGrid point.x 20, snapToGrid point.y 20⟩
  match plugin.shapeDefs sys.ctrl.currentTool with
  | some shapeDef =>
      let shape := shapeFactoryCreate sys.ctrl.currentTool
        (snappedPoint.x - shapeDef.defaultWidth / 2)
        (snappedPoint.y - shapeDef.defaultHeight / 2)
        shapeDef.defaultWidth shapeDef.defaultHeight plugin.id sys.nextId
      let sys := executeCommand (Command.addShape shape)
        { sys with nextId := sys.nextId + 1 }
      let sys := { sys with selection := [shape.id] }
      handleToolSelected sys "select"
  | none => sys

/-- `startDrag(point)` (InteractionController.js lines 696-711): enter
`dragging` and record the starting position of each selected shape. -/
def startDrag (sys : Sys) (point : Point) : Sys :=
  let selectedShapes := sys.selection.filterMap (fun sid => sys.diagram.getShape sid)
  if selectedShapes.length = 0 then sys
  else
    { sys with
      ctrl := { sys.ctrl with
        isDragging := true
        state := "dragging"
        dragStartPoint := some point
        dragStartPositions := some (selectedShapes.map (fun s => (s.id, s.x, s.y))) } }

/-- `doDrag(point)` (InteractionController.js lines 713-728): move every
selected shape by the pointer delta since the last event and store the
new reference point. -/
def doDrag (sys : Sys) (point : Point) : Sys :=
  match sys.ctrl.dragStartPoint with
  | none => sys
  | some start =>
      let dx := point.x - start.x
      let dy := point.y - start.y
      { sys with
        diagram := { sys.diagram with
          shapes := sys.diagram.shapes.map (fun s =>
            if sys.selection.contains s.id then { s with x := s.x + dx, y := s.y + dy }
            else s) }
        ctrl := { sys.ctrl with dragStartPoint := some point } }

/-- `endDrag()` (InteractionController.js lines 745-777): when drag start
positions were recorded and nonempty, compute the total delta of the
first dragged shape from its original position; when it is nonzero, add
one MoveShapes command to the history without executing it; then clear
the drag state. The current position of the first shape is read from the
diagram, the sole source of truth for live shape state. -/
def endDrag (sys : Sys) : Sys :=
  let sys1 :=
    match sys.ctrl.dragStartPositions with
    | some (orig :: rest) =>
        (match sys.diagram.getShape orig.1 with
         | some firstShape =>
             let totalDx := firstShape.x - orig.2.1
             let totalDy := firstShape.y - orig.2.2
             if totalDx ≠ 0 ∨ totalDy ≠ 0 then
               addToHistory
                 (Command.moveShapes ((orig :: rest).map (fun (p : String × Int × Int) => p.1)) totalDx totalDy)
                 sys
             else sys
         | none => sys)
    | _ => sys
  { sys1 with
    ctrl := { sys1.ctrl with
      isDragging := false
      state := "idle"
      dragStartPoint := none
      dragStartPositions := none } }

/-- `endEndpointDrag(point, target)` (InteractionController.js lines
352-387): when the pointer is released over a shape different from the
one attached at the other end, reassign the dragged endpoint to it with
automatic side choice; otherwise leave the connection untouched; always
clear the endpoint-drag state back to idle. The target is optional
because `document.elementFromPoint` can return null. -/
def endEndpointDrag (sys : Sys) (point : Point) (target : Option ClickTarget) : Sys :=
  match sys.ctrl.draggingConnectionId with
  | none => sys
  | some connId =>
    let sys1 :=
      match target.bind (fun t => t.closestShapeId) with
      | some sid =>
        (match sys.diagram.getShape sid with
         | some newShape =>
           (match sys.diagram.getConnection connId with
            | some conn =>
                let otherShapeId :=
                  if sys.ctrl.draggingEndpointType == some "source" then
                    conn.target.shapeId
                  else
                    conn.source.shapeId
                if sid ≠ otherShapeId then
                  let conn' :=
                    if sys.ctrl.draggingEndpointType == some "source" then
                      { conn with source := { shapeId := newShape.id, side := "auto" } }
                    else
                      { conn with target := { shapeId := newShape.id, side := "auto" } }
                  { sys with
                    diagram := { sys.diagram with
                      connections := sys.diagram.connections.map (fun (c : Connection) =>
                        if c.id == connId then conn' else c) } }
                else sys
            | none => sys)
         | none => sys)
      | none => sys
    { sys1 with
      ctrl := { sys1.ctrl with
        draggingEndpoint := false
        state := "idle"
        draggingConnectionId := none
        draggingEndpointType := none } }

/-- JS `String.prototype.toLowerCase`, as in `strToLower e.keyCase()`:
lowercase every character. -/
def strToLower (s : String) : String :=
  String.mk (s.toList.map Char.toLower)

/-- A keyboard event as read by `handleKeyDown`. -/
structure KeyEvent where
  key : String
  ctrlKey : Bool
  metaKey : Bool
  altKey : Bool
  shiftKey : Bool
deriving Repr, DecidableEq

/-- `handleKeyDown(e)` (InteractionController.js lines 779-823):
Delete/Backspace executes one RemoveShape command per selected shape and
clears the selection; z with Ctrl/Meta undoes (redoes with Shift); y with
Ctrl/Meta redoes; Escape resets the interaction state and clears the
selection; finally, when none of Ctrl, Meta, Alt is held, the lowercased
key v or h switches the tool through a TOOL_SELECTED event, handled
synchronously by `handleToolSelected`. -/
def handleKeyDown (sys : Sys) (e : KeyEvent) : Sys :=
  let sys :=
    if e.key == "Delete" || e.key == "Backspace" then
      let selectedShapes := sys.selection.filterMap (fun sid => sys.diagram.getShape sid)
      let sys := selectedShapes.foldl
        (fun acc s => executeCommand (Command.removeShape s) acc) sys
      { sys with selection := [] }
    else sys
  let sys :=
    if e.key == "z" && (e.ctrlKey || e.metaKey) then
      if e.shiftKey then redoCommand sys else undoCommand sys
    else sys
  let sys :=
    if e.key == "y" && (e.ctrlKey || e.metaKey) then redoCommand sys else sys
  let sys :=
    if e.key == "Escape" then
      { resetState sys with selection := [] }
    else sys
  if !e.ctrlKey && !e.metaKey && !e.altKey then
    match strToLower e.key with
    | "v" => handleToolSelected sys "select"
    | "h" => handleToolSelected sys "pan"
    | _ => sys
  else sys

namespace SequencePlugin

/-- `SequencePlugin.validateConnection(sourceShape, targetShape,
connectorType)` (SequencePlugin.js lines 1175-1181): reject only a
connection between shapes with the same id for a connector type other
than selfMessage. -/
def validateConnection (sourceShape targetShape : Shape)
    (connectorType : String) : ValidationResult :=
  if connectorType ≠ "selfMessage" ∧ sourceShape.id = targetShape.id then
    .obj false (some "Use self-call for messages to same object")
  else
    .obj true none

/-- `SequencePlugin.getConnectorTypes()` (SequencePlugin.js lines
1146-1173): the three message connector definitions. Fields not given in
the source declarations (sourceArrow) are absent. -/
def getConnectorTypes : List ConnectorDefinition :=
  [ { connType := "syncMessage"
      name := "Synchronous Message"
      lineStyle := some "solid"
      sourceArrow := none
      targetArrow := some "filled"
      validSources := ["object", "actor", "activation"]
      validTargets := ["object", "actor", "activation"] },
    { connType := "asyncMessage"
      name := "Asynchronous Message"
      lineStyle := some "solid"
      sourceArrow := none
      targetArrow := some "open"
      validSources := ["object", "actor", "activation"]
      validTargets := ["object", "actor", "activation"] },
    { connType := "returnMessage"
      name := "Return Message"
      lineStyle := some "dashed"
      sourceArrow := none
      targetArrow := some "open"
      validSources := ["object", "actor", "activation"]
      validTargets := ["object", "actor", "activation"] } ]

/-- `SequencePlugin.getShapeDefinitions()` (SequencePlugin.js lines
1096-1143), restricted to the default sizes the controller reads. -/
def getShapeDefinitions : String → Option ShapeDefinition
  | "object" => some { defaultWidth := 120, defaultHeight := 50 }
  | "actor" => some { defaultWidth := 60, defaultHeight := 80 }
  | "activation" => some { defaultWidth := 16, defaultHeight := 60 }
  | "fragment" => some { defaultWidth := 200, defaultHeight := 120 }
  | "destroy" => some { defaultWidth := 24, defaultHeight := 24 }
  | "endpoint" => some { defaultWidth := 16, defaultHeight := 16 }
  | "boundary" => some { defaultWidth := 100, defaultHeight := 50 }
  | _ => none

end SequencePlugin

/-- The sequence plugin as seen by the controller. -/
def sequencePlugin : Plugin :=
  { id := "sequence"
    shapeDefs := SequencePlugin.getShapeDefinitions
    connectorTypes := SequencePlugin.getConnectorTypes
    validateConnection := SequencePlugin.validateConnection }

/-! Concrete fixtures used by witnesses and counterexamples. -/

/-- A lifeline shape named A. -/
def shapeA : Shape :=
  { id := "A", x := 100, y := 40, width := 120, height := 50
    shapeType := "object", diagramType := "sequence" }

/-- A lifeline shape named B. -/
def shapeB : Shape :=
  { id := "B", x := 400, y := 40, width := 120, height := 50
    shapeType := "object", diagramType := "sequence" }

/-- A lifeline shape named C. -/
def shapeC : Shape :=
  { id := "C", x := 700, y := 40, width := 120, height := 50
    shapeType := "object", diagramType := "sequence" }

/-- The controller state right after construction
(InteractionController.js lines 30-50). -/
def idleCtrl : ControllerState :=
  { currentTool := "select", state := "idle"
    dragStartPoint := none, dragStartPositions := none
    isDragging := false, isResizing := false
    resizeHandle := none, resizeStartBounds := none, resizingShapeId := none
    connectionSource := none, connectionSourceY := none
    draggingEndpoint := false, draggingConnectionId := none
    draggingEndpointType := none }

/-- A system in the `connecting` state with shape A recorded as the
pending connection source and the syncMessage connector tool active. -/
def sysConnectingA : Sys :=
  { diagram := { shapes := [shapeA, shapeB], connections := [] }
    ctrl := { idleCtrl with
      currentTool := "syncMessage"
      state := "connecting"
      connectionSource := some shapeA
      connectionSourceY := some 100 }
    mgr := { done := [], undone := [] }
    selection := []
    diagnostics := []
    nextId := 0 }

/-- A click whose nearest enclosing shape element is A. -/
def clickOnA : ClickTarget :=
  { closestShapeId := some "A", closestLifeline := false, lifelineParentShapeId := none }

/-- A click whose nearest enclosing shape element is B. -/
def clickOnB : ClickTarget :=
  { closestShapeId := some "B", closestLifeline := false, lifelineParentShapeId := none }

/-- A click whose nearest enclosing shape element is C. -/
def clickOnC : ClickTarget :=
  { closestShapeId := some "C", closestLifeline := false, lifelineParentShapeId := none }

/-- Modelled from the spec: the scenario plugin of spec §8, offering a
box shape tool with default size 100 by 60 and unconditional connection
validation. -/
def boxPlugin : Plugin :=
  { id := "box-demo"
    shapeDefs := fun t =>
      if t = "box" then some { defaultWidth := 100, defaultHeight := 60 } else none
    connectorTypes := []
    validateConnection := fun _ _ _ => .bool true }

/-- An empty system with the box shape tool active. -/
def sysBoxTool : Sys :=
  { diagram := { shapes := [], connections := [] }
    ctrl := { idleCtrl with currentTool := "box" }
    mgr := { done := [], undone := [] }
    selection := []
    diagnostics := []
    nextId := 0 }

/-- A system in the middle of a drag of shape A: its recorded start
position is (70, 20) and its live position is (100, 40). -/
def sysDragging : Sys :=
  { diagram := { shapes := [shapeA], connections := [] }
    ctrl := { idleCtrl with
      state := "dragging"
      isDragging := true
      dragStartPoint := some ⟨130, 80⟩
      dragStartPositions := some [("A", 70, 20)] }
    mgr := { done := [], undone := [] }
    selection := ["A"]
    diagnostics := []
    nextId := 0 }

/-- A syncMessage connection from shape A to shape B. -/
def connAB : Connection :=
  { id := "c1", connType := "syncMessage"
    source := { shapeId := "A", side := "auto" }
    target := { shapeId := "B", side := "auto" }
    sourceY := some 150, targetY := some 150
    style := { lineStyle := "solid", sourceArrow := "none", targetArrow := "filled" }
    diagramType := "sequence" }

/-- A system dragging the target endpoint of connection c1. -/
def sysEndpointDrag : Sys :=
  { diagram := { shapes := [shapeA, shapeB, shapeC], connections := [connAB] }
    ctrl := { idleCtrl with
      state := "dragging-endpoint"
      draggingEndpoint := true
      draggingConnectionId := some "c1"
      draggingEndpointType := some "target"
      dragStartPoint := some ⟨460, 150⟩ }
    mgr := { done := [], undone := [] }
    selection := []
    diagnostics := []
    nextId := 0 }

/-- An idle system with the pan tool active. -/
def sysPanTool : Sys :=
  { diagram := { shapes := [], connections := [] }
    ctrl := { idleCtrl with currentTool := "pan" }
    mgr := { done := [], undone := [] }
    selection := []
    diagnostics := []
    nextId := 0 }

/-- A keydown of the letter v with Shift as the only held modifier. -/
def shiftVEvent : KeyEvent :=
  { key := "V", ctrlKey := false, metaKey := false, altKey := false, shiftKey := true }
/-- C2: for every starting bounds, every handle among the eight, and every
delta, the bounds returned by `calculateNewBounds` satisfy width ≥ 40 and
height ≥ 30, and the edge opposite the dragged handle is unchanged. -/
theorem calculateNewBounds_min_size_and_opposite_edge
    (orig : Bounds) (handleId : String) (dx dy : Int)
    (hmem : handleId ∈ resizeHandles) :
    40 ≤ (calculateNewBounds orig handleId dx dy).width ∧
    30 ≤ (calculateNewBounds orig handleId dx dy).height ∧
    oppositeEdgesFixed orig (calculateNewBounds orig handleId dx dy) handleId := by
  simp only [resizeHandles, List.mem_cons, List.not_mem_nil, or_false] at hmem
  rcases hmem with rfl | rfl | rfl | rfl | rfl | rfl | rfl | rfl <;>
    simp only [calculateNewBounds, oppositeEdgesFixed] <;>
    [ simp only [show strContainsChar "n" 'e' = false from by decide,
        show strContainsChar "n" 'w' = false from by decide,
        show strContainsChar "n" 's' = false from by decide,
        show strContainsChar "n" 'n' = true from by decide];
      simp only [show strContainsChar "s" 'e' = false from by decide,
        show strContainsChar "s" 'w' = false from by decide,
        show strContainsChar "s" 's' = true from by decide,
        show strContainsChar "s" 'n' = false from by decide];
      simp only [show strContainsChar "e" 'e' = true from by decide,
        show strContainsChar "e" 'w' = false from by decide,
        show strContainsChar "e" 's' = false from by decide,
        show strContainsChar "e" 'n' = false from by decide];
      simp only [show strContainsChar "w" 'e' = false from by decide,
        show strContainsChar "w" 'w' = true from by decide,
        show strContainsChar "w" 's' = false from by decide,
        show strContainsChar "w" 'n' = false from by decide];
      simp only [show strContainsChar "ne" 'e' = true from by decide,
        show strContainsChar "ne" 'w' = false from by decide,
        show strContainsChar "ne" 's' = false from by decide,
        show strContainsChar "ne" 'n' = true from by decide];
      simp only [show strContainsChar "nw" 'e' = false from by decide,
        show strContainsChar "nw" 'w' = true from by decide,
        show strContainsChar "nw" 's' = false from by decide,
        show strContainsChar "nw" 'n' = true from by decide];
      simp only [show strContainsChar "se" 'e' = true from by decide,
        show strContainsChar "se" 'w' = false from by decide,
        show strContainsChar "se" 's' = true from by decide,
        show strContainsChar "se" 'n' = false from by decide];
      simp only [show strContainsChar "sw" 'e' = false from by decide,
        show strContainsChar "sw" 'w' = true from by decide,
        show strContainsChar "sw" 's' = true from by decide,
        show strContainsChar "sw" 'n' = false from by decide]] <;>
    simp only [Bool.false_eq_true, false_implies, true_implies, true_and, and_true,
      if_false, if_true] <;>
    (split_ifs <;> simp_all <;> omega)

/-- Witness for C2 at a concrete input (handle nw, large negative delta). -/
theorem calculateNewBounds_min_size_and_opposite_edge_witness :
    ("nw" ∈ resizeHandles) ∧
    (40 ≤ (calculateNewBounds ⟨10, 20, 100, 50⟩ "nw" 200 300).width ∧
     30 ≤ (calculateNewBounds ⟨10, 20, 100, 50⟩ "nw" 200 300).height ∧
     oppositeEdgesFixed ⟨10, 20, 100, 50⟩
       (calculateNewBounds ⟨10, 20, 100, 50⟩ "nw" 200 300) "nw") :=
  ⟨by decide,
   calculateNewBounds_min_size_and_opposite_edge ⟨10, 20, 100, 50⟩ "nw" 200 300 (by decide)⟩

/-- C6: from bounds (10,10,100,50), handle se with delta (30,10) yields
(10,10,130,60); handle se with delta (-90,0) yields width clamped to 40
with x unchanged at 10. -/
theorem calculateNewBounds_se_scenarios :
    calculateNewBounds ⟨10, 10, 100, 50⟩ "se" 30 10 = ⟨10, 10, 130, 60⟩ ∧
    (calculateNewBounds ⟨10, 10, 100, 50⟩ "se" (-90) 0).width = 40 ∧
    (calculateNewBounds ⟨10, 10, 100, 50⟩ "se" (-90) 0).x = 10 := by
  decide

/-- C10: SequencePlugin.validateConnection is an object-valued predicate
only on ids and the connector type: for distinct ids it accepts with
{valid: true} whatever the shapes and connector type are (the
validSources/validTargets catalogs never enter), for equal ids it rejects
with the self-call message unless the connector type is selfMessage, and
it never returns a bare boolean. -/
theorem sequenceValidateConnection_spec (s t : Shape) (ct : String) :
    (s.id ≠ t.id → SequencePlugin.validateConnection s t ct = .obj true none) ∧
    (s.id = t.id → ct ≠ "selfMessage" →
      SequencePlugin.validateConnection s t ct =
        .obj false (some "Use self-call for messages to same object")) ∧
    (s.id = t.id → ct = "selfMessage" →
      SequencePlugin.validateConnection s t ct = .obj true none) ∧
    (∀ s' t' : Shape, s'.id = s.id → t'.id = t.id →
      SequencePlugin.validateConnection s' t' ct =
        SequencePlugin.validateConnection s t ct) ∧
    (∀ b : Bool, SequencePlugin.validateConnection s t ct ≠ .bool b) := by
  unfold SequencePlugin.validateConnection
  refine ⟨?_, ?_, ?_, ?_, ?_⟩
  · intro h
    rw [if_neg]
    intro hc
    exact h hc.2
  · intro h hc
    rw [if_pos ⟨hc, h⟩]
  · intro h hc
    rw [if_neg]
    intro hx
    exact hx.1 hc
  · intro s' t' hs ht
    rw [hs, ht]
  · intro b
    split_ifs <;> intro h <;> exact ValidationResult.noConfusion h

/-- Witness for C10: distinct lifelines A and B are accepted for a
syncMessage. -/
theorem sequenceValidateConnection_spec_witness :
    SequencePlugin.validateConnection shapeA shapeB "syncMessage" =
      .obj true none :=
  (sequenceValidateConnection_spec shapeA shapeB "syncMessage").1 (by decide)

/-- C4 (amended): with a connection source already recorded, a connector
tool click resolving to a shape with the same id is ignored entirely: no
validation runs, no connection is created, and the whole system state,
including the `connecting` interaction state, is unchanged. -/
theorem connectorToolClick_same_shape_noop
    (plugin : Plugin) (sys : Sys) (point : Point) (target : ClickTarget)
    (src shape : Shape)
    (hsrc : sys.ctrl.connectionSource = some src)
    (hshape : connectorClickShape sys.diagram target = some shape)
    (hsame : src.id = shape.id) :
    handleConnectorToolClick plugin sys point target = sys := by
  have hcond : ¬(target.closestShapeId = none ∧ target.closestLifeline = false) := by
    intro h
    rw [connectorClickShape, h.1] at hshape
    simp [h.2] at hshape
  simp only [handleConnectorToolClick, if_neg hcond, hshape, hsrc]
  simp [hsame]

/-- Witness for C4 (amended): clicking A while A is the recorded source
leaves the system untouched. -/
theorem connectorToolClick_same_shape_noop_witness :
    handleConnectorToolClick sequencePlugin sysConnectingA ⟨100, 200⟩ clickOnA
      = sysConnectingA :=
  connectorToolClick_same_shape_noop sequencePlugin sysConnectingA ⟨100, 200⟩
    clickOnA shapeA shapeA (by decide) (by decide) rfl

/-- Counterexample to C4 as stated: with the sequence plugin (which
disallows self reference for syncMessage), clicking A and then A again
does create no connection, but the state machine stays in `connecting`
instead of returning to idle. -/
theorem connectorToolClick_same_shape_stays_connecting :
    (handleConnectorToolClick sequencePlugin sysConnectingA ⟨100, 200⟩
        clickOnA).diagram.connections = [] ∧
    (handleConnectorToolClick sequencePlugin sysConnectingA ⟨100, 200⟩
        clickOnA).ctrl.state = "connecting" ∧
    (handleConnectorToolClick sequencePlugin sysConnectingA ⟨100, 200⟩
        clickOnA).ctrl.state ≠ "idle" := by
  decide

/-- C1: with a source recorded, a connector tool click on a different
shape adds a connection exactly when the validation result is the boolean
true or an object with a truthy valid field; on rejection the diagram and
the command history are untouched, the connecting state is aborted to
idle, and the validation message only lands in the diagnostics. -/
theorem connectorToolClick_validation_gate
    (plugin : Plugin) (sys : Sys) (point : Point) (target : ClickTarget)
    (src shape : Shape)
    (hsrc : sys.ctrl.connectionSource = some src)
    (hshape : connectorClickShape sys.diagram target = some shape)
    (hdiff : src.id ≠ shape.id) :
    ((plugin.validateConnection src shape sys.ctrl.currentTool).isValid = true ↔
      (handleConnectorToolClick plugin sys point target).diagram.connections.length
        = sys.diagram.connections.length + 1) ∧
    ((plugin.validateConnection src shape sys.ctrl.currentTool).isValid = false →
      (handleConnectorToolClick plugin sys point target).diagram = sys.diagram ∧
      (handleConnectorToolClick plugin sys point target).mgr = sys.mgr ∧
      (handleConnectorToolClick plugin sys point target).ctrl.state = "idle" ∧
      (handleConnectorToolClick plugin sys point target).ctrl.connectionSource = none ∧
      (handleConnectorToolClick plugin sys point target).diagnostics =
        (plugin.validateConnection src shape sys.ctrl.currentTool).diagnosticMessage
          :: sys.diagnostics) := by
  have hcond : ¬(target.closestShapeId = none ∧ target.closestLifeline = false) := by
    intro h
    rw [connectorClickShape, h.1] at hshape
    simp [h.2] at hshape
  simp only [handleConnectorToolClick, if_neg hcond, hshape, hsrc]
  simp only [if_pos hdiff]
  cases hv : (plugin.validateConnection src shape sys.ctrl.currentTool).isValid with
  | true =>
      simp only [hv, if_true, resetConnectionState, executeCommand, Command.applyTo]
      constructor
      · simp [List.length_append]
      · intro h
        simp at h
  | false =>
      simp only [hv, if_false, resetConnectionState]
      constructor
      · simp
      · intro _
        refine ⟨rfl, rfl, rfl, rfl, rfl⟩

/-- Witness for C1: the valid syncMessage click from A onto B adds one
connection. -/
theorem connectorToolClick_validation_gate_witness :
    (handleConnectorToolClick sequencePlugin sysConnectingA ⟨250, 150⟩
        clickOnB).diagram.connections.length
      = sysConnectingA.diagram.connections.length + 1 :=
  (connectorToolClick_validation_gate sequencePlugin sysConnectingA ⟨250, 150⟩
      clickOnB shapeA shapeB (by decide) (by decide) (by decide)).1.mp (by decide)

/-- C7: when the active plugin is the sequence diagram type, a completing
connector tool click appends one connection whose source and target
attachment Y offsets both equal the Y coordinate of that click. -/
theorem connectorToolClick_sequence_horizontal
    (plugin : Plugin) (sys : Sys) (point : Point) (target : ClickTarget)
    (src shape : Shape)
    (hsrc : sys.ctrl.connectionSource = some src)
    (hshape : connectorClickShape sys.diagram target = some shape)
    (hdiff : src.id ≠ shape.id)
    (hseq : plugin.id = "sequence")
    (hvalid : (plugin.validateConnection src shape sys.ctrl.currentTool).isValid
        = true) :
    ∃ conn : Connection,
      (handleConnectorToolClick plugin sys point target).diagram.connections
        = sys.diagram.connections ++ [conn] ∧
      conn.sourceY = some point.y ∧
      conn.targetY = some point.y ∧
      conn.sourceY = conn.targetY ∧
      conn.source.shapeId = src.id ∧
      conn.target.shapeId = shape.id := by
  have hcond : ¬(target.closestShapeId = none ∧ target.closestLifeline = false) := by
    intro h
    rw [connectorClickShape, h.1] at hshape
    simp [h.2] at hshape
  simp only [handleConnectorToolClick, if_neg hcond, hshape, hsrc]
  simp only [if_pos hdiff, hvalid, if_true]
  refine ⟨_, rfl, ?_, ?_, ?_, rfl, rfl⟩ <;>
    simp [hseq, resetConnectionState, executeCommand, Command.applyTo]

/-- Witness for C7: the A to B syncMessage completed by a click at Y=150
carries 150 as both attachment offsets. -/
theorem connectorToolClick_sequence_horizontal_witness :
    ∃ conn : Connection,
      (handleConnectorToolClick sequencePlugin sysConnectingA ⟨250, 150⟩
          clickOnB).diagram.connections
        = sysConnectingA.diagram.connections ++ [conn] ∧
      conn.sourceY = some (150 : Int) ∧
      conn.targetY = some (150 : Int) ∧
      conn.sourceY = conn.targetY ∧
      conn.source.shapeId = shapeA.id ∧
      conn.target.shapeId = shapeB.id :=
  connectorToolClick_sequence_horizontal sequencePlugin sysConnectingA ⟨250, 150⟩
    clickOnB shapeA shapeB (by decide) (by decide) (by decide) rfl (by decide)

/-- C5 (amended): a box tool click at (103, 57) with grid snap 20 and
default size 100 by 60 snaps the click point to (100, 60) and centers the
new shape on it, producing bounds (50, 30, 100, 60). -/
theorem shapeToolClick_snap_center :
    snapToGrid 103 20 = 100 ∧
    snapToGrid 57 20 = 60 ∧
    ((handleShapeToolClick boxPlugin sysBoxTool ⟨103, 57⟩).diagram.shapes.map
      (fun s => (s.x, s.y, s.width, s.height))) = [(50, 30, 100, 60)] := by
  decide

/-- Counterexample to C5 as stated: the shape created by the box tool
click at (103, 57) has bounds (50, 30, 100, 60), not (60, 40, 100, 60):
centering the 100 by 60 default on the snapped point (100, 60) puts the
corner at (50, 30). -/
theorem shapeToolClick_scenario_bounds_differ :
    ((handleShapeToolClick boxPlugin sysBoxTool ⟨103, 57⟩).diagram.shapes.map
      (fun s => (s.x, s.y, s.width, s.height))) ≠ [(60, 40, 100, 60)] ∧
    ((handleShapeToolClick boxPlugin sysBoxTool ⟨103, 57⟩).diagram.shapes.map
      (fun s => (s.x, s.y, s.width, s.height))) = [(50, 30, 100, 60)] := by
  decide

/-- C3: pointer-up on a drag whose recorded start positions are nonempty
and whose shapes all show the same net displacement (dx, dy): when the
displacement is nonzero, exactly one MoveShapes command carrying the ids
and the total delta is pushed onto the history with the diagram left
untouched (recorded, not re-executed); when it is zero, the history is
untouched too; either way the controller returns to idle. -/
theorem endDrag_move_command
    (sys : Sys) (positions : List (String × Int × Int)) (dx dy : Int)
    (hpos : sys.ctrl.dragStartPositions = some positions)
    (hne : positions ≠ [])
    (hdisp : ∀ p ∈ positions, ∃ s : Shape, sys.diagram.getShape p.1 = some s ∧
        s.x - p.2.1 = dx ∧ s.y - p.2.2 = dy) :
    (¬(dx = 0 ∧ dy = 0) →
      (endDrag sys).mgr.done
        = Command.moveShapes (positions.map (fun p => p.1)) dx dy :: sys.mgr.done ∧
      (endDrag sys).diagram = sys.diagram) ∧
    ((dx = 0 ∧ dy = 0) →
      (endDrag sys).mgr = sys.mgr ∧ (endDrag sys).diagram = sys.diagram) ∧
    (endDrag sys).ctrl.state = "idle" := by
  cases positions with
  | nil => exact absurd rfl hne
  | cons orig rest =>
      obtain ⟨s, hs, hsx, hsy⟩ := hdisp orig (List.mem_cons_self orig rest)
      simp only [endDrag, hpos, hs, hsx, hsy]
      by_cases hz : dx = 0 ∧ dy = 0
      · rw [if_neg]
        · refine ⟨fun h => absurd hz h, fun _ => ⟨rfl, rfl⟩, trivial⟩
        · simp [hz.1, hz.2]
      · rw [if_pos]
        · refine ⟨fun _ => ⟨rfl, rfl⟩, fun h => absurd h hz, trivial⟩
        · rcases Decidable.not_and_iff_or_not.mp hz with h | h
          · exact Or.inl h
          · exact Or.inr h

/-- Witness for C3: shape A dragged from (70, 20) to (100, 40) yields one
MoveShapes command with delta (30, 20) and no further model change. -/
theorem endDrag_move_command_witness :
    (endDrag sysDragging).mgr.done = [Command.moveShapes ["A"] 30 20] ∧
    (endDrag sysDragging).diagram = sysDragging.diagram :=
  (endDrag_move_command sysDragging [("A", 70, 20)] 30 20 rfl (by decide)
      (fun p hp => by
        simp only [List.mem_singleton] at hp
        subst hp
        exact ⟨shapeA, by decide, by decide, by decide⟩)).1
    (by decide)


/-- C8: releasing an endpoint drag never touches the command history and
always returns to idle; when the pointer is over a shape found in the
diagram whose id differs from the shape at the other end of the dragged
connection, the dragged endpoint (source or target, per which was
grabbed) is reassigned to that shape with automatic side choice; over
empty canvas, over an unresolvable shape, or over the other end of the
same connection, the diagram, and with it the endpoints of the
connection, is left exactly as before. -/
theorem endEndpointDrag_endpoint_rules
    (sys : Sys) (point : Point) (target : Option ClickTarget)
    (connId : String) (conn : Connection) (et : String)
    (hdrag : sys.ctrl.draggingConnectionId = some connId)
    (hconn : sys.diagram.getConnection connId = some conn)
    (het : sys.ctrl.draggingEndpointType = some et) :
    (endEndpointDrag sys point target).mgr = sys.mgr ∧
    (endEndpointDrag sys point target).ctrl.state = "idle" ∧
    (∀ sid s, target.bind (fun t => t.closestShapeId) = some sid →
      sys.diagram.getShape sid = some s →
      sid ≠ (if et = "source" then conn.target.shapeId else conn.source.shapeId) →
      (endEndpointDrag sys point target).diagram.connections
        = sys.diagram.connections.map (fun c =>
            if c.id == connId then
              (if et = "source" then
                { conn with source := { shapeId := s.id, side := "auto" } }
               else
                { conn with target := { shapeId := s.id, side := "auto" } })
            else c)) ∧
    ((target.bind (fun t => t.closestShapeId) = none ∨
      (∃ sid, target.bind (fun t => t.closestShapeId) = some sid ∧
        (sys.diagram.getShape sid = none ∨
         sid = (if et = "source" then conn.target.shapeId
                else conn.source.shapeId)))) →
      (endEndpointDrag sys point target).diagram = sys.diagram) := by
  cases htb : target.bind (fun t => t.closestShapeId) with
  | none =>
      simp only [endEndpointDrag, hdrag, htb]
      exact ⟨by trivial, by trivial, fun sid s h1 => absurd h1 (by simp),
        fun _ => by trivial⟩
  | some sid =>
      cases hgs : sys.diagram.getShape sid with
      | none =>
          simp only [endEndpointDrag, hdrag, htb, hgs]
          refine ⟨by trivial, by trivial, fun sid' s h1 h2 => ?_, fun _ => by trivial⟩
          obtain rfl : sid = sid' := by simpa using h1
          rw [hgs] at h2
          exact Option.noConfusion h2
      | some s0 =>
          simp only [endEndpointDrag, hdrag, htb, hgs, hconn, het, beq_iff_eq,
            Option.some.injEq]
          by_cases he : et = "source" <;>
            by_cases hid : sid = (if et = "source" then conn.target.shapeId
              else conn.source.shapeId)
          · simp only [he, eq_self_iff_true, if_true, ite_true] at hid ⊢
            rw [if_neg (show ¬(sid ≠ conn.target.shapeId) from fun h => h hid)]
            refine ⟨by trivial, by trivial, fun sid' s h1 h2 h3 => ?_,
              fun _ => by trivial⟩
            obtain rfl : sid = sid' := by simpa using h1
            exact absurd hid h3
          · simp only [he, eq_self_iff_true, if_true, ite_true] at hid ⊢
            rw [if_pos (show sid ≠ conn.target.shapeId from hid)]
            refine ⟨by trivial, by trivial, fun sid' s h1 h2 h3 => ?_,
              fun hcase => ?_⟩
            · obtain rfl : sid = sid' := by simpa using h1
              rw [hgs] at h2
              obtain rfl : s0 = s := by simpa using h2
              rfl
            · rcases hcase with h | ⟨sid', h1, h2⟩
              · exact Option.noConfusion h
              · obtain rfl : sid = sid' := by simpa using h1
                rcases h2 with h2 | h2
                · rw [hgs] at h2
                  exact Option.noConfusion h2
                · exact absurd h2 hid
          · simp only [he, if_false, ite_false] at hid ⊢
            rw [if_neg (show ¬(sid ≠ conn.source.shapeId) from fun h => h hid)]
            refine ⟨by trivial, by trivial, fun sid' s h1 h2 h3 => ?_,
              fun _ => by trivial⟩
            obtain rfl : sid = sid' := by simpa using h1
            exact absurd hid h3
          · simp only [he, if_false, ite_false] at hid ⊢
            rw [if_pos (show sid ≠ conn.source.shapeId from hid)]
            refine ⟨by trivial, by trivial, fun sid' s h1 h2 h3 => ?_,
              fun hcase => ?_⟩
            · obtain rfl : sid = sid' := by simpa using h1
              rw [hgs] at h2
              obtain rfl : s0 = s := by simpa using h2
              rfl
            · rcases hcase with h | ⟨sid', h1, h2⟩
              · exact Option.noConfusion h
              · obtain rfl : sid = sid' := by simpa using h1
                rcases h2 with h2 | h2
                · rw [hgs] at h2
                  exact Option.noConfusion h2
                · exact absurd h2 hid

/-- Witness for C8: dropping the dragged target endpoint of the A to B
connection onto shape C reassigns the target to C, with the history
untouched. -/
theorem endEndpointDrag_endpoint_rules_witness :
    (endEndpointDrag sysEndpointDrag ⟨760, 150⟩ (some clickOnC)).mgr
        = sysEndpointDrag.mgr ∧
    (endEndpointDrag sysEndpointDrag ⟨760, 150⟩ (some clickOnC)).diagram.connections
        = sysEndpointDrag.diagram.connections.map (fun c =>
            if c.id == "c1" then
              (if "target" = "source" then
                { connAB with source := { shapeId := shapeC.id, side := "auto" } }
               else
                { connAB with target := { shapeId := shapeC.id, side := "auto" } })
            else c) :=
  ⟨(endEndpointDrag_endpoint_rules sysEndpointDrag ⟨760, 150⟩ (some clickOnC)
      "c1" connAB "target" rfl (by decide) rfl).1,
   (endEndpointDrag_endpoint_rules sysEndpointDrag ⟨760, 150⟩ (some clickOnC)
      "c1" connAB "target" rfl (by decide) rfl).2.2.1 "C" shapeC rfl (by decide)
      (by decide)⟩

/-- The currentTool field survives `executeCommand`. -/
theorem executeCommand_currentTool (c : Command) (sys : Sys) :
    (executeCommand c sys).ctrl.currentTool = sys.ctrl.currentTool := rfl

/-- The currentTool field survives the Delete-key command fold. -/
theorem foldl_executeCommand_currentTool (l : List Shape) (sys : Sys) :
    (l.foldl (fun acc s => executeCommand (Command.removeShape s) acc)
      sys).ctrl.currentTool = sys.ctrl.currentTool := by
  induction l generalizing sys with
  | nil => rfl
  | cons hd tl ih => simpa using ih (executeCommand (Command.removeShape hd) sys)

/-- The currentTool field survives `undoCommand`. -/
theorem undoCommand_currentTool (sys : Sys) :
    (undoCommand sys).ctrl.currentTool = sys.ctrl.currentTool := by
  unfold undoCommand
  cases sys.mgr.done <;> rfl

/-- The currentTool field survives `redoCommand`. -/
theorem redoCommand_currentTool (sys : Sys) :
    (redoCommand sys).ctrl.currentTool = sys.ctrl.currentTool := by
  unfold redoCommand
  cases sys.mgr.undone <;> rfl

/-- The currentTool field survives `resetState`. -/
theorem resetState_currentTool (sys : Sys) :
    (resetState sys).ctrl.currentTool = sys.ctrl.currentTool := rfl

/-- The currentTool after `handleKeyDown`, in closed form: it becomes
select or pan exactly when no Ctrl, Meta or Alt modifier is held and the
lowercased key is v or h, and is otherwise unchanged. -/
theorem handleKeyDown_currentTool_eq (sys : Sys) (e : KeyEvent) :
    (handleKeyDown sys e).ctrl.currentTool =
      (if (!e.ctrlKey && !e.metaKey && !e.altKey) = true then
        (match strToLower e.key with
          | "v" => "select"
          | "h" => "pan"
          | _ => sys.ctrl.currentTool)
      else sys.ctrl.currentTool) := by
  unfold handleKeyDown
  split_ifs with h1 h2 h3 h4 h5 <;>
    (try split) <;>
    simp_all only [handleToolSelected, resetState_currentTool,
      foldl_executeCommand_currentTool, undoCommand_currentTool,
      redoCommand_currentTool, resetState, resetConnectionState]

/-- C9 (amended): tool shortcut keys are ignored exactly while Ctrl, Meta
or Alt is held: with any of those three down no keydown changes the
active tool, and with all three up (Shift does not matter) the key v
switches to select and h to pan. -/
theorem handleKeyDown_tool_shortcuts (sys : Sys) (e : KeyEvent) :
    ((e.ctrlKey || e.metaKey || e.altKey) = true →
      (handleKeyDown sys e).ctrl.currentTool = sys.ctrl.currentTool) ∧
    (e.ctrlKey = false → e.metaKey = false → e.altKey = false →
      (strToLower e.key = "v" → (handleKeyDown sys e).ctrl.currentTool = "select") ∧
      (strToLower e.key = "h" → (handleKeyDown sys e).ctrl.currentTool = "pan")) := by
  constructor
  · intro h
    have hmods : (!e.ctrlKey && !e.metaKey && !e.altKey) = false := by
      cases hc : e.ctrlKey <;> cases hm : e.metaKey <;> cases ha : e.altKey <;>
        simp_all
    rw [handleKeyDown_currentTool_eq, hmods]
    simp
  · intro hc hm ha
    have hmods : (!e.ctrlKey && !e.metaKey && !e.altKey) = true := by
      simp [hc, hm, ha]
    constructor
    · intro hk
      rw [handleKeyDown_currentTool_eq, hmods]
      simp only [if_true, hk]
    · intro hk
      rw [handleKeyDown_currentTool_eq, hmods]
      simp only [if_true, hk]

/-- Witness for C9 (amended): with Ctrl held, the v key leaves the pan
tool active. -/
theorem handleKeyDown_tool_shortcuts_witness :
    (handleKeyDown sysPanTool
        { key := "v", ctrlKey := true, metaKey := false, altKey := false,
          shiftKey := false }).ctrl.currentTool
      = sysPanTool.ctrl.currentTool :=
  (handleKeyDown_tool_shortcuts sysPanTool
    { key := "v", ctrlKey := true, metaKey := false, altKey := false,
      shiftKey := false }).1 (by decide)

/-- Counterexample to C9 as stated: Shift is a modifier key, yet a
Shift-modified v keydown still switches the active tool from pan to
select, because the shortcut guard only checks Ctrl, Meta and Alt. -/
theorem handleKeyDown_shift_still_switches :
    shiftVEvent.shiftKey = true ∧
    (handleKeyDown sysPanTool shiftVEvent).ctrl.currentTool = "select" ∧
    (handleKeyDown sysPanTool shiftVEvent).ctrl.currentTool
      ≠ sysPanTool.ctrl.currentTool := by
  refine ⟨rfl, ?_, ?_⟩ <;>
    · rw [handleKeyDown_currentTool_eq]
      decide
